import Mathlib

/-
Verification of the pathFinder repository: the replica-path resolver
(src/path_finder/path_finder.py, extract_rse_path) and the mount/unmount
lifecycle orchestrator (src/path_finder/mount_data.py, with the parallel
CLI variant in src/bash_scripts/pathFinder.py), shallowly embedded.

Filesystem effects (directory creation, chown/chmod, the bindfs and bind
mount commands, umount, removal) are modelled as an explicit state (FS)
plus an event trace; outcomes of the external mount tools are supplied by
an environment record (Env), and the mount-point query is answered from
the modelled state, mirroring the design in which the OS is the ground
truth for mount status.
-/

namespace PathFinder

/-- A POSIX path as pathlib models it: an absolute flag plus the list of
non-root segments.  pathlib parts of an absolute path start with the extra
root component, which partsLen accounts for. -/
structure PathT where
  abs : Bool
  segs : List String
deriving DecidableEq, Repr

/-- pathlib Path.name: the last segment, or the empty string. -/
def PathT.name (p : PathT) : String := p.segs.getLast?.getD ""

/-- pathlib Path.parent: drop the last segment. -/
def PathT.parent (p : PathT) : PathT := ⟨p.abs, p.segs.dropLast⟩

/-- Length of pathlib Path.parts: the root counts as one component. -/
def PathT.partsLen (p : PathT) : Nat := (if p.abs then 1 else 0) + p.segs.length

/-- mount_data.parse_rse_path extracts the namespace as
rse_path.relative_to(rse_path.parents[-1]).parts[0], which is the first
non-root segment for both relative and absolute paths. -/
def PathT.nsHead (p : PathT) : String := p.segs.head?.getD ""

/-- pathlib suffix stripping on one file name: remove from the last dot,
provided that dot is neither the first nor the last character
(Path.with_suffix of the empty suffix leaves names such as .bashrc and
names with a trailing dot unchanged). -/
def stripExtChars (s : List Char) : List Char :=
  match s.reverse.findIdx? (fun c => c = '.') with
  | none => s
  | some j => if 0 < j ∧ j + 1 < s.length then (s.reverse.drop (j + 1)).reverse else s

/-- String form of stripExtChars. -/
def stripExt (s : String) : String := String.mk (stripExtChars s.toList)

/-- pathlib Path.with_suffix of the empty suffix: strip the extension of
the final segment only. -/
def PathT.withSuffixEmpty (p : PathT) : PathT :=
  ⟨p.abs, p.segs.dropLast ++ (p.segs.getLast?.map stripExt).toList⟩

/-- pathlib the / operator: a second absolute path discards the first
operand entirely. -/
def PathT.join (p q : PathT) : PathT :=
  if q.abs then q else ⟨p.abs, p.segs ++ q.segs⟩

/-- pathlib the / operator with one further relative segment. -/
def PathT.joinSeg (p : PathT) (s : String) : PathT := ⟨p.abs, p.segs ++ [s]⟩

/-- Does the first list start with the second list. -/
def startsWith : List Char → List Char → Bool
  | _, [] => true
  | [], _ :: _ => false
  | a :: as, b :: bs => a = b && startsWith as bs

/-- Leftmost suffix of the string that starts with the pattern: the model
of re.search for the literal pattern followed by dot-star-dollar, whose
group(0) is everything from the first occurrence of the pattern to the
end of the string. -/
def findMatch (pat : List Char) : List Char → Option (List Char)
  | [] => if startsWith [] pat then some [] else none
  | c :: rest =>
    if startsWith (c :: rest) pat then some (c :: rest) else findMatch pat rest

/-- The pattern of path_finder.extract_rse_path: a slash, the namespace,
a slash. -/
def rsePattern (nspace : String) : List Char := ('/' :: nspace.toList) ++ ['/']

/-- The matched candidate paths of path_finder.extract_rse_path: all
replica URIs of all data locations, in order, that contain the namespace
pattern, each contributing its matched tail.  A data location is modelled
by its replicas list, the only field the resolver reads. -/
def matchedCandidates (locations : List (List String)) (nspace : String) : List String :=
  (locations.flatten).filterMap fun uri =>
    (findMatch (rsePattern nspace) uri.toList).map String.mk

/-- Resolver failures: zero candidates, or more than one distinct
candidate (the code raises RuntimeError and NotImplementedError
respectively; the spec names them NotFound and AmbiguousLocation). -/
inductive ResolveErr where
  | notFound
  | ambiguousLocation
deriving DecidableEq, Repr

/-- path_finder.extract_rse_path.  The regex search is modelled as a
literal substring search, which coincides with re.search for the
namespaces in use (no regex metacharacters, no newlines in URIs).  The
matched paths land in a Python set, modelled by dedup of the match list;
file_name only feeds the error message. -/
def extract_rse_path (locations : List (List String)) (nspace file_name : String) :
    Except ResolveErr String :=
  match (matchedCandidates locations nspace).dedup with
  | [] => .error .notFound
  | [p] => .ok p
  | _ => .error .ambiguousLocation

/-- Failure modes of the mount and unmount flows, each of which prints a
diagnostic and exits with status 1 in the code; the names follow the
error kinds of the design. -/
inductive Err where
  | privilegeRequired
  | noSudoUser
  | invalidPath
  | namespaceMismatch
  | cyclicMount
  | unknownIdentity
  | bindfsFailed
  | bindMountFailed
  | verificationFailed
deriving DecidableEq, Repr

instance : DecidableEq (Except Err Unit) := fun a b => by
  cases a with
  | ok u =>
    cases b with
    | ok v => cases u; cases v; exact isTrue rfl
    | error f => exact isFalse (fun h => Except.noConfusion h)
  | error e =>
    cases b with
    | ok v => exact isFalse (fun h => Except.noConfusion h)
    | error f =>
      exact
        if h : e = f then isTrue (by rw [h])
        else isFalse (fun hh => h (by injection hh))

/-- External actions the orchestrator performs, recorded as a trace. -/
inductive Ev where
  | queryMount (p : PathT)
  | mkdirp (p : PathT)
  | chown (p : PathT) (uid gid : Nat)
  | chmod (p : PathT) (mode : Nat)
  | touch (p : PathT)
  | bindfs (src tgt : PathT)
  | bindMount (src tgt : PathT)
  | umount (p : PathT)
  | rmrf (p : PathT)
  | unlink (p : PathT)
deriving DecidableEq, Repr

/-- Remove the first occurrence of a path from a list. -/
def removeFirst (p : PathT) : List PathT → List PathT
  | [] => []
  | q :: rest => if q = p then rest else q :: removeFirst p rest

/-- The filesystem state the orchestrator observes and mutates: the set of
current mount points, the directories and files that exist, and the
recorded ownership and permission assignments (most recent first). -/
structure FS where
  mounts : List PathT
  dirs : List PathT
  files : List PathT
  owners : List (PathT × Nat × Nat)
  modes : List (PathT × Nat)
deriving DecidableEq, Repr

/-- mount_data.is_mountpoint: the mountpoint -q query, answered from the
modelled state. -/
def FS.isMountpoint (fs : FS) (p : PathT) : Bool := decide (p ∈ fs.mounts)

def FS.addMount (fs : FS) (p : PathT) : FS := { fs with mounts := p :: fs.mounts }

def FS.eraseMount (fs : FS) (p : PathT) : FS :=
  { fs with mounts := removeFirst p fs.mounts }

def FS.addDir (fs : FS) (p : PathT) : FS :=
  { fs with dirs := if p ∈ fs.dirs then fs.dirs else p :: fs.dirs }

def FS.addFile (fs : FS) (p : PathT) : FS :=
  { fs with files := if p ∈ fs.files then fs.files else p :: fs.files }

def FS.setOwner (fs : FS) (p : PathT) (uid gid : Nat) : FS :=
  { fs with owners := (p, uid, gid) :: fs.owners }

def FS.setMode (fs : FS) (p : PathT) (m : Nat) : FS :=
  { fs with modes := (p, m) :: fs.modes }

/-- Most recently assigned mode of a path. -/
def lookupMode (p : PathT) : List (PathT × Nat) → Option Nat
  | [] => none
  | (q, m) :: rest => if q = p then some m else lookupMode p rest

def FS.modeOf (fs : FS) (p : PathT) : Option Nat := lookupMode p fs.modes

def FS.pathExists (fs : FS) (p : PathT) : Bool :=
  decide (p ∈ fs.dirs) || decide (p ∈ fs.files)

def FS.eraseDir (fs : FS) (p : PathT) : FS := { fs with dirs := removeFirst p fs.dirs }

def FS.eraseFile (fs : FS) (p : PathT) : FS :=
  { fs with files := removeFirst p fs.files }

/-- Outcomes of the external world: the user database consulted by
pwd.getpwnam, and whether the bindfs and the bind mount commands exit
with status zero. -/
structure Env where
  users : List (String × Nat × Nat)
  bindfsOk : Bool
  bindOk : Bool
deriving DecidableEq, Repr

/-- Result of a mount or unmount request: the exit outcome, the final
filesystem state, the trace of external actions, and the umount targets
whose failures were downgraded to printed warnings. -/
structure Out where
  res : Except Err Unit
  fs : FS
  tr : List Ev
  warns : List PathT
deriving DecidableEq, Repr

/-- mount_data.validate_rse_path: empty paths and paths with fewer than
two components are rejected (both exits are modelled as invalidPath). -/
def validate_rse_path (rse : PathT) : Except Err Unit :=
  if rse.partsLen = 0 then .error .invalidPath
  else if rse.partsLen < 2 then .error .invalidPath
  else .ok ()

/-- mount_data.parse_rse_path: filename, directory, namespace segment and
the extension-stripped bind path. -/
def parse_rse_path (rse : PathT) : Except Err (String × PathT × String × PathT) :=
  match validate_rse_path rse with
  | .error e => .error e
  | .ok _ => .ok (rse.name, rse.parent, rse.nsHead, rse.withSuffixEmpty)

/-- mount_data.verify_namespace_matches_group. -/
def verify_namespace_matches_group (ns group : String) : Except Err Unit :=
  if ns = group then .ok () else .error .namespaceMismatch

/-- The home directory the code derives from the sudo user name. -/
def homePath (user : String) : PathT := ⟨true, ["home", user]⟩

/-- mount_data.prepare_mount_paths: the bind target under home slash
dot-binds and the project file under home slash projects.  filepath is a
parameter of the source function but unused by it. -/
def prepare_mount_paths (user : String) (filepath : PathT) (bindPath : PathT)
    (filename : String) : PathT × PathT :=
  (((homePath user).joinSeg ".binds").join bindPath,
   ((homePath user).joinSeg "projects").joinSeg filename)

/-- mount_data.check_no_cyclical_mount: query the given path and reject
when it is already a mount point. -/
def check_no_cyclical_mount (fs : FS) (bindsPath : PathT) : Except Err Unit × List Ev :=
  (if fs.isMountpoint bindsPath then .error .cyclicMount else .ok (),
   [.queryMount bindsPath])

/-- mount_data.get_user_ids via pwd.getpwnam. -/
def get_user_ids (env : Env) (user : String) : Except Err (Nat × Nat) :=
  match env.users.lookup user with
  | some ug => .ok ug
  | none => .error .unknownIdentity

/-- mount_data.create_mount_directories: make the bind target directory,
chown home slash dot-binds, chmod the bind target to octal 600, make the
projects directory, touch the project file, chown the projects directory
and chmod the project file to octal 600. -/
def create_mount_directories (user : String) (bindTarget projectFile : PathT)
    (uid gid : Nat) (fs : FS) : FS × List Ev :=
  let hb := (homePath user).joinSeg ".binds"
  let pd := projectFile.parent
  let fs1 := fs.addDir bindTarget
  let fs2 := fs1.setOwner hb uid gid
  let fs3 := fs2.setMode bindTarget 0o600
  let fs4 := fs3.addDir pd
  let fs5 := fs4.addFile projectFile
  let fs6 := fs5.setOwner pd uid gid
  let fs7 := fs6.setMode projectFile 0o600
  (fs7,
   [.mkdirp bindTarget, .chown hb uid gid, .chmod bindTarget 0o600,
    .mkdirp pd, .touch projectFile, .chown pd uid gid,
    .chmod projectFile 0o600])

/-- The bindfs source: the f-string prepends the literal /skadata/ to the
directory path (an absolute directory path yields a double slash, which
the tool treats the same). -/
def skadataSource (filepath : PathT) : PathT := ⟨true, "skadata" :: filepath.segs⟩

/-- mount_data.perform_bindfs_mount: run bindfs from the skadata source
onto the bind target; on success the bind target becomes a mount point,
on failure the flow aborts with the diagnostic of the tool. -/
def perform_bindfs_mount (env : Env) (filepath bindTarget : PathT) (user : String)
    (fs : FS) : Except Err Unit × FS × List Ev :=
  let ev := Ev.bindfs (skadataSource filepath) bindTarget
  if env.bindfsOk then (.ok (), fs.addMount bindTarget, [ev])
  else (.error .bindfsFailed, fs, [ev])

/-- mount_data.perform_bind_mount: bind-mount the file inside the bind
target onto the project file; on failure the stage-one mount on the bind
target is unmounted before aborting. -/
def perform_bind_mount (env : Env) (bindTarget : PathT) (filename : String)
    (projectFile : PathT) (fs : FS) : Except Err Unit × FS × List Ev :=
  let ev := Ev.bindMount (bindTarget.joinSeg filename) projectFile
  if env.bindOk then (.ok (), fs.addMount projectFile, [ev])
  else (.error .bindMountFailed, fs.eraseMount bindTarget, [ev, .umount bindTarget])

/-- mount_data.verify_mount_success: the project file must now report as
a mount point. -/
def verify_mount_success (fs : FS) (projectFile : PathT) : Except Err Unit × List Ev :=
  (if fs.isMountpoint projectFile then .ok () else .error .verificationFailed,
   [.queryMount projectFile])

/-- mount_data.mount_file: parse, namespace check, path planning, cycle
check on the parent of the bind target, identity lookup, directory and
permission preparation, the two mounts and the final verification, in
the order of the source. -/
def mount_file (env : Env) (fs : FS) (user group : String) (rse : PathT) : Out :=
  match parse_rse_path rse with
  | .error e => ⟨.error e, fs, [], []⟩
  | .ok (filename, filepath, ns, bindPath) =>
    match verify_namespace_matches_group ns group with
    | .error e => ⟨.error e, fs, [], []⟩
    | .ok _ =>
      let bindTarget := (prepare_mount_paths user filepath bindPath filename).1
      let projectFile := (prepare_mount_paths user filepath bindPath filename).2
      let chk := check_no_cyclical_mount fs bindTarget.parent
      match chk.1 with
      | .error e => ⟨.error e, fs, chk.2, []⟩
      | .ok _ =>
        match get_user_ids env user with
        | .error e => ⟨.error e, fs, chk.2, []⟩
        | .ok (uid, gid) =>
          let cd := create_mount_directories user bindTarget projectFile uid gid fs
          let m1 := perform_bindfs_mount env filepath bindTarget user cd.1
          match m1.1 with
          | .error e => ⟨.error e, m1.2.1, chk.2 ++ cd.2 ++ m1.2.2, []⟩
          | .ok _ =>
            let m2 := perform_bind_mount env bindTarget filename projectFile m1.2.1
            match m2.1 with
            | .error e => ⟨.error e, m2.2.1, chk.2 ++ cd.2 ++ m1.2.2 ++ m2.2.2, []⟩
            | .ok _ =>
              let v := verify_mount_success m2.2.1 projectFile
              ⟨v.1, m2.2.1, chk.2 ++ cd.2 ++ m1.2.2 ++ m2.2.2 ++ v.2, []⟩

/-- mount_data.unmount_project_file: umount of the project file, with a
failed umount (the target is not a mount point) downgraded to a printed
warning. -/
def unmount_project_file (fs : FS) (projectFile : PathT) : FS × List Ev × List PathT :=
  if fs.isMountpoint projectFile then (fs.eraseMount projectFile, [.umount projectFile], [])
  else (fs, [.umount projectFile], [projectFile])

/-- mount_data.unmount_bind_target: same warning-only policy for the
bind target. -/
def unmount_bind_target (fs : FS) (bindTarget : PathT) : FS × List Ev × List PathT :=
  if fs.isMountpoint bindTarget then (fs.eraseMount bindTarget, [.umount bindTarget], [])
  else (fs, [.umount bindTarget], [bindTarget])

/-- mount_data.cleanup_mount_artifacts: remove the bind target
recursively when it exists, then unlink the project file when it
exists. -/
def cleanup_mount_artifacts (fs : FS) (bindTarget projectFile : PathT) : FS × List Ev :=
  let step1 :=
    if fs.pathExists bindTarget then (fs.eraseDir bindTarget, [Ev.rmrf bindTarget])
    else (fs, [])
  let step2 :=
    if step1.1.pathExists projectFile then
      (step1.1.eraseFile projectFile, [Ev.unlink projectFile])
    else (step1.1, [])
  (step2.1, step1.2 ++ step2.2)

/-- mount_data.unmount_file: parse, plan the same two paths, then the
three best-effort teardown steps; the overall request succeeds
regardless of individual umount failures. -/
def unmount_file (fs : FS) (user : String) (rse : PathT) : Out :=
  match parse_rse_path rse with
  | .error e => ⟨.error e, fs, [], []⟩
  | .ok (filename, filepath, _ns, bindPath) =>
    let (bindTarget, projectFile) := prepare_mount_paths user filepath bindPath filename
    let s1 := unmount_project_file fs projectFile
    let s2 := unmount_bind_target s1.1 bindTarget
    let s3 := cleanup_mount_artifacts s2.1 bindTarget projectFile
    ⟨.ok (), s3.1, s1.2.1 ++ s2.2.1 ++ s3.2, s1.2.2 ++ s2.2.2⟩

/-- mount_data.mount_unmount: the entry point checks root privileges and
the SUDO_USER variable, then dispatches to mount_file or unmount_file;
the namespace argument is only handed to the mount branch. -/
def mount_unmount (euid : Nat) (sudoUser : Option String) (env : Env) (fs : FS)
    (rse : PathT) (nspace : String) (mount : Bool) : Out :=
  if euid ≠ 0 then ⟨.error .privilegeRequired, fs, [], []⟩
  else
    match sudoUser with
    | none => ⟨.error .noSudoUser, fs, [], []⟩
    | some user =>
      if mount then mount_file env fs user nspace rse else unmount_file fs user rse

/-- The bind target mount_file computes for a valid replica path (the
first component of prepare_mount_paths applied to the parse products). -/
def bindTargetFor (user : String) (rse : PathT) : PathT :=
  (prepare_mount_paths user rse.parent rse.withSuffixEmpty rse.name).1

/-- The project file mount_file computes for a valid replica path. -/
def projectFileFor (user : String) (rse : PathT) : PathT :=
  (prepare_mount_paths user rse.parent rse.withSuffixEmpty rse.name).2

/-- The bind target parse_rse_path plus prepare_mount_paths plan for a
replica path, when the path validates. -/
def plannedBindTarget (user : String) (rse : PathT) : Option PathT :=
  match parse_rse_path rse with
  | .error _ => none
  | .ok (filename, filepath, _ns, bindPath) =>
    some (prepare_mount_paths user filepath bindPath filename).1

/-- A path lies in the home directory of the given user: absolute and its
first two segments are home and the user name. -/
def underHome (user : String) (p : PathT) : Prop :=
  p.abs = true ∧ p.segs.take 2 = ["home", user]

/-- An environment in which the user alice exists and both mount tools
succeed. -/
def env0 : Env := ⟨[("alice", 1000, 1000)], true, true⟩

/-- An environment in which the bindfs mount succeeds and the bind mount
fails. -/
def env1 : Env := ⟨[("alice", 1000, 1000)], true, false⟩

/-- The empty filesystem state. -/
def fs0 : FS := ⟨[], [], [], [], []⟩

/-- The relative replica path daac/a/b/f.fits. -/
def rse0 : PathT := ⟨false, ["daac", "a", "b", "f.fits"]⟩

/-- The absolute replica path /daac/a/b/f.fits. -/
def rseAbs0 : PathT := ⟨true, ["daac", "a", "b", "f.fits"]⟩

theorem parse_rse_path_ok (rse : PathT) (hv : 2 ≤ rse.partsLen) :
    parse_rse_path rse = .ok (rse.name, rse.parent, rse.nsHead, rse.withSuffixEmpty) := by
  have h0 : ¬ rse.partsLen = 0 := by omega
  have h1 : ¬ rse.partsLen < 2 := by omega
  simp [parse_rse_path, validate_rse_path, h0, h1]

/-- Claim C2: whenever the matching replica URIs yield two or more
distinct namespace-prefixed candidate paths, the resolver fails with the
ambiguous-location error (the explicit not-implemented stop in
extract_rse_path). -/
theorem resolver_ambiguous_on_two_distinct (locations : List (List String))
    (ns fn : String)
    (h : 2 ≤ ((matchedCandidates locations ns).dedup).length) :
    extract_rse_path locations ns fn = .error .ambiguousLocation := by
  unfold extract_rse_path
  rcases hd : (matchedCandidates locations ns).dedup with _ | ⟨a, _ | ⟨b, t⟩⟩
  · rw [hd] at h; simp at h
  · rw [hd] at h; simp at h
  · rfl

theorem resolver_ambiguous_on_two_distinct_witness :
    2 ≤ ((matchedCandidates [["rse://siteA/daac/x/f.fits"],
      ["rse://siteB/daac/y/f.fits"]] "daac").dedup).length ∧
    extract_rse_path [["rse://siteA/daac/x/f.fits"], ["rse://siteB/daac/y/f.fits"]]
      "daac" "f.fits" = .error .ambiguousLocation :=
  ⟨by decide, resolver_ambiguous_on_two_distinct _ _ "f.fits" (by decide)⟩

/-- Claim C6: whenever every matching replica URI yields one and the same
namespace-prefixed path, the resolver returns that path. -/
theorem resolver_returns_unique_candidate (locations : List (List String))
    (ns fn p : String) (h : (matchedCandidates locations ns).dedup = [p]) :
    extract_rse_path locations ns fn = .ok p := by
  unfold extract_rse_path
  rw [h]

theorem resolver_returns_unique_candidate_witness :
    (matchedCandidates [["rse://siteA/daac/a/b/f.fits"],
      ["rse://siteB/daac/a/b/f.fits"]] "daac").dedup = ["/daac/a/b/f.fits"] ∧
    extract_rse_path [["rse://siteA/daac/a/b/f.fits"], ["rse://siteB/daac/a/b/f.fits"]]
      "daac" "f.fits" = .ok "/daac/a/b/f.fits" :=
  ⟨by decide, resolver_returns_unique_candidate _ _ "f.fits" _ (by decide)⟩

/-- Claim C10: the unmount flow never consults the namespace argument:
for any two group values the entry point performs exactly the same
operations with the same result. -/
theorem unmount_ignores_namespace (euid : Nat) (su : Option String) (env : Env)
    (fs : FS) (rse : PathT) (g1 g2 : String) :
    mount_unmount euid su env fs rse g1 false = mount_unmount euid su env fs rse g2 false := rfl

/-- Claim C1 (failing evaluation): a second mount of the same replica
path for the same user immediately after a successful one is not
rejected: the cycle check probes the parent of the bind target, which
the first mount never made a mount point, so the second mount succeeds
and repeats the directory creation and both mount commands instead of
failing with the cyclic-mount error. -/
theorem second_mount_passes_cycle_check :
    (mount_file env0 fs0 "alice" "daac" rse0).res = .ok () ∧
    (mount_file env0 (mount_file env0 fs0 "alice" "daac" rse0).fs
      "alice" "daac" rse0).res = .ok () ∧
    (mount_file env0 (mount_file env0 fs0 "alice" "daac" rse0).fs
      "alice" "daac" rse0).res ≠ .error .cyclicMount ∧
    Ev.mkdirp (bindTargetFor "alice" rse0) ∈
      (mount_file env0 (mount_file env0 fs0 "alice" "daac" rse0).fs
        "alice" "daac" rse0).tr ∧
    Ev.bindfs (skadataSource rse0.parent) (bindTargetFor "alice" rse0) ∈
      (mount_file env0 (mount_file env0 fs0 "alice" "daac" rse0).fs
        "alice" "daac" rse0).tr := by
  decide

/-- Claim C4: a namespace whose leading segment differs from the supplied
group is rejected with the namespace-mismatch error before any
filesystem mutation: the state is returned unchanged and the trace of
external actions is empty. -/
theorem mount_rejects_namespace_mismatch (env : Env) (fs : FS) (user group : String)
    (rse : PathT) (hv : 2 ≤ rse.partsLen) (hne : rse.nsHead ≠ group) :
    mount_file env fs user group rse = ⟨.error .namespaceMismatch, fs, [], []⟩ := by
  simp [mount_file, parse_rse_path_ok rse hv, verify_namespace_matches_group, hne]

theorem mount_rejects_namespace_mismatch_witness :
    2 ≤ rse0.partsLen ∧ rse0.nsHead ≠ "teal" ∧
    mount_file env0 fs0 "alice" "teal" rse0 =
      ⟨.error .namespaceMismatch, fs0, [], []⟩ :=
  ⟨by decide, by decide,
   mount_rejects_namespace_mismatch env0 fs0 "alice" "teal" rse0 (by decide) (by decide)⟩

/-- Claim C3 (counterexample): for user alice and replica path
daac/a/b/f.fits the planned bind target keeps the intermediate path
components daac/a/b under the private-mounts root and is therefore not
the leaf-only location the claim describes. -/
theorem planned_bind_target_not_leaf_only :
    plannedBindTarget "alice" rse0 =
      some ⟨true, ["home", "alice", ".binds", "daac", "a", "b", "f"]⟩ ∧
    (⟨true, ["home", "alice", ".binds", "daac", "a", "b", "f"]⟩ : PathT) ≠
      ⟨true, ["home", "alice", ".binds", "f"]⟩ := by
  decide

/-- Claim C3 (amended): for every user and every valid relative replica
path, the planned bind target is the private-mounts root followed by the
whole namespace path with only its file extension stripped, intermediate
components included. -/
theorem planned_bind_target_full_path (user : String) (rse : PathT)
    (hrel : rse.abs = false) (hv : 2 ≤ rse.partsLen) :
    plannedBindTarget user rse =
      some ⟨true, "home" :: user :: ".binds" :: rse.withSuffixEmpty.segs⟩ := by
  simp [plannedBindTarget, parse_rse_path_ok rse hv, prepare_mount_paths, PathT.join,
        PathT.joinSeg, homePath, PathT.withSuffixEmpty, hrel]

theorem planned_bind_target_full_path_witness :
    rse0.abs = false ∧ 2 ≤ rse0.partsLen ∧
    plannedBindTarget "alice" rse0 =
      some ⟨true, "home" :: "alice" :: ".binds" :: rse0.withSuffixEmpty.segs⟩ :=
  ⟨by decide, by decide,
   planned_bind_target_full_path "alice" rse0 (by decide) (by decide)⟩

theorem projectFile_ne_bindTarget_rel (user : String) (rse : PathT)
    (hrel : rse.abs = false) :
    projectFileFor user rse ≠ bindTargetFor user rse := by
  simp [projectFileFor, bindTargetFor, prepare_mount_paths, PathT.join, PathT.joinSeg,
        homePath, PathT.withSuffixEmpty, hrel]

/-- Claim C5 (counterexample): on a fully successful mount the bind
target receives mode octal 600, not the owner-only
read/write/execute mode octal 700 the claim states. -/
theorem mount_gives_bind_target_mode_600 :
    (mount_file env0 fs0 "alice" "daac" rse0).res = .ok () ∧
    (mount_file env0 fs0 "alice" "daac" rse0).fs.modeOf (bindTargetFor "alice" rse0) =
      some 0o600 ∧
    some (0o600 : Nat) ≠ some 0o700 := by
  decide

/-- Claim C5 (amended): after the directory-preparation and
ownership/permission step of a mount, the bind target has owner
read/write mode octal 600 and the project file has owner read/write
mode octal 600. -/
theorem mount_sets_modes_0600 (env : Env) (fs : FS) (user group : String)
    (rse : PathT) (uid gid : Nat)
    (hrel : rse.abs = false) (hv : 2 ≤ rse.partsLen) (hns : rse.nsHead = group)
    (hc : (bindTargetFor user rse).parent ∉ fs.mounts)
    (hu : env.users.lookup user = some (uid, gid)) :
    (mount_file env fs user group rse).fs.modeOf (bindTargetFor user rse) = some 0o600 ∧
    (mount_file env fs user group rse).fs.modeOf (projectFileFor user rse) = some 0o600 := by
  have hnePB := projectFile_ne_bindTarget_rel user rse hrel
  simp only [bindTargetFor, projectFileFor, prepare_mount_paths] at hc hnePB ⊢
  cases hbf : env.bindfsOk <;> cases hbm : env.bindOk <;>
    simp [mount_file, parse_rse_path_ok rse hv, verify_namespace_matches_group, hns,
          check_no_cyclical_mount, FS.isMountpoint, hc, get_user_ids, hu,
          create_mount_directories, perform_bindfs_mount, perform_bind_mount,
          verify_mount_success, prepare_mount_paths, FS.addDir, FS.addFile,
          FS.setOwner, FS.setMode, FS.addMount, FS.eraseMount, FS.modeOf,
          lookupMode, hnePB, hbf, hbm]

theorem mount_sets_modes_0600_witness :
    rse0.abs = false ∧ 2 ≤ rse0.partsLen ∧ rse0.nsHead = "daac" ∧
    (bindTargetFor "alice" rse0).parent ∉ fs0.mounts ∧
    env0.users.lookup "alice" = some (1000, 1000) ∧
    ((mount_file env0 fs0 "alice" "daac" rse0).fs.modeOf (bindTargetFor "alice" rse0) =
      some 0o600 ∧
     (mount_file env0 fs0 "alice" "daac" rse0).fs.modeOf (projectFileFor "alice" rse0) =
      some 0o600) :=
  ⟨by decide, by decide, by decide, by decide, by decide,
   mount_sets_modes_0600 env0 fs0 "alice" "daac" rse0 1000 1000
     (by decide) (by decide) (by decide) (by decide) (by decide)⟩

/-- Claim C7: when the stage-two bind mount fails after a successful
stage-one bindfs mount, the orchestrator issues an umount of the bind
target before reporting the failure, and the set of mount points is
restored to what it was before the request: no orphaned remapping mount
is left behind. -/
theorem bind_mount_failure_unmounts_stage_one (env : Env) (fs : FS)
    (user group : String) (rse : PathT) (uid gid : Nat)
    (hv : 2 ≤ rse.partsLen) (hns : rse.nsHead = group)
    (hc : (bindTargetFor user rse).parent ∉ fs.mounts)
    (hu : env.users.lookup user = some (uid, gid))
    (h1 : env.bindfsOk = true) (h2 : env.bindOk = false) :
    (mount_file env fs user group rse).res = .error .bindMountFailed ∧
    Ev.umount (bindTargetFor user rse) ∈ (mount_file env fs user group rse).tr ∧
    (mount_file env fs user group rse).fs.mounts = fs.mounts := by
  simp only [bindTargetFor, prepare_mount_paths] at hc ⊢
  simp [mount_file, parse_rse_path_ok rse hv, verify_namespace_matches_group, hns,
        check_no_cyclical_mount, FS.isMountpoint, hc, get_user_ids, hu,
        create_mount_directories, perform_bindfs_mount, perform_bind_mount, h1, h2,
        FS.addDir, FS.addFile, FS.setOwner, FS.setMode, FS.addMount, FS.eraseMount,
        removeFirst, prepare_mount_paths]

theorem bind_mount_failure_unmounts_stage_one_witness :
    2 ≤ rse0.partsLen ∧ rse0.nsHead = "daac" ∧
    (bindTargetFor "alice" rse0).parent ∉ fs0.mounts ∧
    env1.users.lookup "alice" = some (1000, 1000) ∧
    env1.bindfsOk = true ∧ env1.bindOk = false ∧
    ((mount_file env1 fs0 "alice" "daac" rse0).res = .error .bindMountFailed ∧
     Ev.umount (bindTargetFor "alice" rse0) ∈ (mount_file env1 fs0 "alice" "daac" rse0).tr ∧
     (mount_file env1 fs0 "alice" "daac" rse0).fs.mounts = fs0.mounts) :=
  ⟨by decide, by decide, by decide, by decide, by decide, by decide,
   bind_mount_failure_unmounts_stage_one env1 fs0 "alice" "daac" rse0 1000 1000
     (by decide) (by decide) (by decide) (by decide) (by decide) (by decide)⟩

/-- Claim C8: for any filesystem state, unmount of a valid replica path
succeeds overall: both umount commands are attempted, a project file
that is not currently a mount point only yields a warning, and the
removal of an existing bind target is still attempted. -/
theorem unmount_best_effort (fs : FS) (user : String) (rse : PathT)
    (hv : 2 ≤ rse.partsLen) :
    (unmount_file fs user rse).res = .ok () ∧
    Ev.umount (projectFileFor user rse) ∈ (unmount_file fs user rse).tr ∧
    Ev.umount (bindTargetFor user rse) ∈ (unmount_file fs user rse).tr ∧
    (projectFileFor user rse ∉ fs.mounts →
      projectFileFor user rse ∈ (unmount_file fs user rse).warns) ∧
    (fs.pathExists (bindTargetFor user rse) = true →
      Ev.rmrf (bindTargetFor user rse) ∈ (unmount_file fs user rse).tr) := by
  simp only [bindTargetFor, projectFileFor, prepare_mount_paths] at *
  simp only [unmount_file, parse_rse_path_ok rse hv, unmount_project_file,
             unmount_bind_target, cleanup_mount_artifacts, FS.isMountpoint,
             FS.eraseMount, FS.eraseDir, FS.eraseFile, FS.pathExists,
             prepare_mount_paths]
  split_ifs <;> simp_all

/-- The filesystem state after a successful mount followed by an
unmount of the same replica path: the input of a second unmount. -/
def fsAfterCycle : FS :=
  (unmount_file (mount_file env0 fs0 "alice" "daac" rse0).fs "alice" rse0).fs

theorem unmount_best_effort_witness :
    2 ≤ rse0.partsLen ∧
    ((unmount_file fsAfterCycle "alice" rse0).res = .ok () ∧
     Ev.umount (projectFileFor "alice" rse0) ∈ (unmount_file fsAfterCycle "alice" rse0).tr ∧
     Ev.umount (bindTargetFor "alice" rse0) ∈ (unmount_file fsAfterCycle "alice" rse0).tr ∧
     (projectFileFor "alice" rse0 ∉ fsAfterCycle.mounts →
       projectFileFor "alice" rse0 ∈ (unmount_file fsAfterCycle "alice" rse0).warns) ∧
     (fsAfterCycle.pathExists (bindTargetFor "alice" rse0) = true →
       Ev.rmrf (bindTargetFor "alice" rse0) ∈ (unmount_file fsAfterCycle "alice" rse0).tr)) :=
  ⟨by decide, unmount_best_effort fsAfterCycle "alice" rse0 (by decide)⟩

theorem withSuffixEmpty_not_underHome (user : String) (rse : PathT)
    (hne : rse.segs ≠ []) (hh : rse.segs.head? ≠ some "home") :
    ¬ underHome user rse.withSuffixEmpty := by
  rintro ⟨-, htake⟩
  simp only [PathT.withSuffixEmpty] at htake
  rcases hs : rse.segs with _ | ⟨a, _ | ⟨b, t2⟩⟩
  · exact hne hs
  · rw [hs] at htake
    simp at htake
  · rw [hs] at htake hh
    simp only [List.head?] at hh
    simp [List.dropLast] at htake
    exact hh (by simp [htake.1])

/-- Claim C9: an absolute replica path with at least one segment passes
path validation; the planned bind target is then the replica path itself
with its extension stripped, because joining an absolute path onto the
private-mounts root discards the home prefix, so the directory
creation, the permission change and the stage-one bindfs mount of the
mount flow all target that location outside the home directory of the
invoking user. -/
theorem absolute_replica_path_escapes_home (env : Env) (fs : FS)
    (user group : String) (rse : PathT) (uid gid : Nat)
    (habs : rse.abs = true) (hne : rse.segs ≠ [])
    (hh : rse.segs.head? ≠ some "home")
    (hns : rse.nsHead = group)
    (hc : (bindTargetFor user rse).parent ∉ fs.mounts)
    (hu : env.users.lookup user = some (uid, gid)) :
    validate_rse_path rse = .ok () ∧
    bindTargetFor user rse = rse.withSuffixEmpty ∧
    ¬ underHome user (bindTargetFor user rse) ∧
    Ev.mkdirp (bindTargetFor user rse) ∈ (mount_file env fs user group rse).tr ∧
    Ev.chmod (bindTargetFor user rse) 0o600 ∈ (mount_file env fs user group rse).tr ∧
    Ev.bindfs (skadataSource rse.parent) (bindTargetFor user rse) ∈
      (mount_file env fs user group rse).tr := by
  have hlen : 0 < rse.segs.length := List.length_pos.mpr hne
  have hv : 2 ≤ rse.partsLen := by
    simp only [PathT.partsLen, habs, if_true]
    omega
  have hbt : bindTargetFor user rse = rse.withSuffixEmpty := by
    simp [bindTargetFor, prepare_mount_paths, PathT.join, PathT.withSuffixEmpty, habs]
  have h0 : ¬ rse.partsLen = 0 := by omega
  have h1 : ¬ rse.partsLen < 2 := by omega
  refine ⟨by simp [validate_rse_path, h0, h1], hbt,
          by rw [hbt]; exact withSuffixEmpty_not_underHome user rse hne hh, ?_, ?_, ?_⟩ <;>
    · simp only [bindTargetFor, prepare_mount_paths] at hc ⊢
      cases hbf : env.bindfsOk <;> cases hbm : env.bindOk <;>
        simp [mount_file, parse_rse_path_ok rse hv, verify_namespace_matches_group, hns,
              check_no_cyclical_mount, FS.isMountpoint, hc, get_user_ids, hu,
              create_mount_directories, perform_bindfs_mount, perform_bind_mount,
              verify_mount_success, prepare_mount_paths, FS.addDir, FS.addFile,
              FS.setOwner, FS.setMode, FS.addMount, FS.eraseMount, hbf, hbm]

theorem absolute_replica_path_escapes_home_witness :
    rseAbs0.abs = true ∧ rseAbs0.segs ≠ [] ∧
    rseAbs0.segs.head? ≠ some "home" ∧ rseAbs0.nsHead = "daac" ∧
    (bindTargetFor "alice" rseAbs0).parent ∉ fs0.mounts ∧
    env0.users.lookup "alice" = some (1000, 1000) ∧
    (validate_rse_path rseAbs0 = .ok () ∧
     bindTargetFor "alice" rseAbs0 = rseAbs0.withSuffixEmpty ∧
     ¬ underHome "alice" (bindTargetFor "alice" rseAbs0) ∧
     Ev.mkdirp (bindTargetFor "alice" rseAbs0) ∈
       (mount_file env0 fs0 "alice" "daac" rseAbs0).tr ∧
     Ev.chmod (bindTargetFor "alice" rseAbs0) 0o600 ∈
       (mount_file env0 fs0 "alice" "daac" rseAbs0).tr ∧
     Ev.bindfs (skadataSource rseAbs0.parent) (bindTargetFor "alice" rseAbs0) ∈
       (mount_file env0 fs0 "alice" "daac" rseAbs0).tr) :=
  ⟨by decide, by decide, by decide, by decide, by decide, by decide,
   absolute_replica_path_escapes_home env0 fs0 "alice" "daac" rseAbs0 1000 1000
     (by decide) (by decide) (by decide) (by decide) (by decide) (by decide)⟩

end PathFinder

